import Mathlib

/-!
Shallow embedding of the customer/billing web application
(`src/app.py`, basic variant, and `src/sistema_clientes/app.py`, extended
variant) and proofs about its data model, query/filter engine, summary
aggregation, export serialization, authentication and provisioning.

Conventions of the embedding:
* The relational store is a `List Cliente` (insertion order = id order).
* SQL `ILIKE '%q%'` is modelled as case-insensitive substring containment
  (the Record Store contract of the application: case-insensitive substring
  lookup; LIKE metacharacters in the needle are outside the modelled domain).
  A `NULL` column never matches (`NULL ILIKE p` is not true in SQL), which the
  embedding renders as `Option.none` never matching.
* `ORDER BY nome` with the store's stable tie order (id ascending) is
  modelled by a stable insertion sort on the insertion-ordered list.
* Python floats for `valor_a_pagar` are modelled as `ℚ`; password hashing is
  an opaque parameter (`genHash` / `verify`), per the application's use of an
  external one-way hash.
-/

/-- The numeric value of the `valor_a_pagar` column, kept as the exact
decimal read from the submitted literal: `mant / 10 ^ scale`.  The
application never computes with amounts in any claimed behavior (they are
parsed, stored, filtered past, and re-serialized), so an exact decimal
carrier is a faithful stand-in for the Python float. -/
structure Amount where
  mant : Int
  scale : Nat
  deriving DecidableEq, Repr

/-- A calendar date, as stored in the `data_vencimento` column. -/
structure DateD where
  year : Nat
  month : Nat
  day : Nat
  deriving DecidableEq, Repr

/-- The `Cliente` model of `src/app.py` (lines 39-47): `nome` and
`valor_a_pagar` and `status_pagamento` required, the other text fields and
the due date nullable.  (The extended variant additionally makes `email`
required and unique; its listing logic is embedded over this common record
type, with a `none` email simply never matching a search.) -/
structure Cliente where
  id : Nat
  nome : String
  email : Option String
  telefone : Option String
  valor_a_pagar : Amount
  status_pagamento : String
  anotacoes : Option String
  data_vencimento : Option DateD
  deriving DecidableEq, Repr

/-- The `User` model of `src/app.py` (lines 28-37); the hash is an opaque
string produced by the external hashing primitive. -/
structure User where
  id : Nat
  username : String
  password_hash : String
  deriving DecidableEq, Repr

/-- The three enumerated payment statuses (Portuguese originals). -/
def statusValues : List String := ["A Pagar", "Pago", "Parcial"]

/-! ### Case-insensitive substring matching (SQL `ILIKE '%q%'`) -/

/-- `beginsWith p l` : the char list `p` is an initial segment of `l`. -/
def beginsWith : List Char → List Char → Bool
  | [], _ => true
  | _ :: _, [] => false
  | p :: ps, h :: hs => p == h && beginsWith ps hs

/-- `hasSub p l` : the char list `p` occurs contiguously inside `l`. -/
def hasSub (p : List Char) : List Char → Bool
  | [] => p.isEmpty
  | h :: hs => beginsWith p (h :: hs) || hasSub p hs

/-- Case-insensitive substring test: `ILIKE '%needle%'` on `hay`.
Both SQLite's `LIKE` (case-insensitive per default) and `Char.toLower`
fold case on ASCII letters only. -/
def containsCI (needle hay : String) : Bool :=
  hasSub (needle.toList.map Char.toLower) (hay.toList.map Char.toLower)

/-- A nullable column against `ILIKE`: `NULL` never matches. -/
def matchOpt (needle : String) : Option String → Bool
  | some s => containsCI needle s
  | none => false

/-! ### The query/filter engine, basic variant (`src/app.py`, listar_clientes) -/

/-- The `or_` of the five `ilike` clauses of `src/app.py` lines 143-149,
in source order: nome, email, telefone, anotacoes, status_pagamento. -/
def matchSearch (q : String) (c : Cliente) : Bool :=
  containsCI q c.nome || matchOpt q c.email || matchOpt q c.telefone ||
    matchOpt q c.anotacoes || containsCI q c.status_pagamento

/-- The status clause: only the sentinel `"Todos"` disables filtering
(`if status != 'Todos': query.filter(status_pagamento == status)`). -/
def statusPass (status : String) (c : Cliente) : Bool :=
  status == "Todos" || c.status_pagamento == status

/-- Byte/codepoint lexicographic order on char lists (SQLite's default
BINARY collation on UTF-8 text; codepoint order and byte order agree). -/
def charListLe : List Char → List Char → Bool
  | [], _ => true
  | _ :: _, [] => false
  | a :: as, b :: bs =>
    if a.toNat = b.toNat then charListLe as bs
    else decide (a.toNat < b.toNat)

def nomeLe (a b : Cliente) : Bool := charListLe a.nome.toList b.nome.toList

/-- `ORDER BY nome` with stable ties (id / insertion order): stable
insertion sort by `nome`. -/
def sortCli (cs : List Cliente) : List Cliente :=
  cs.insertionSort (fun a b => nomeLe a b = true)

/-- `listar_clientes` of `src/app.py` lines 130-151: status filter (skipped
exactly for `"Todos"`), then search filter (skipped for the empty string),
then `ORDER BY nome`. -/
def listar (cs : List Cliente) (status q : String) : List Cliente :=
  let cs1 := if status == "Todos" then cs else
    cs.filter (fun c => c.status_pagamento == status)
  let cs2 := if q == "" then cs1 else cs1.filter (matchSearch q)
  sortCli cs2

/-! ### The query/filter engine, extended variant
(`src/sistema_clientes/app.py`, listar_clientes) -/

/-- The `or_` of the seven `ilike` clauses of `src/sistema_clientes/app.py`
line 119, in source order: nome, email, anotacoes, telefone,
status_pagamento, `cast(id, String)`, `cast(valor_a_pagar, String)`.  The
rendering of the float column as a string is storage-dependent, so it is an
explicit parameter `castVal`. -/
def matchSearchV2 (castVal : Amount → String) (q : String) (c : Cliente) : Bool :=
  containsCI q c.nome || matchOpt q c.email || matchOpt q c.anotacoes ||
    matchOpt q c.telefone || containsCI q c.status_pagamento ||
    containsCI q (toString c.id) || containsCI q (castVal c.valor_a_pagar)

/-- Python's `str.strip()` (whitespace from both ends). -/
def pyStrip (s : String) : String :=
  String.mk (((s.toList.dropWhile Char.isWhitespace).reverse.dropWhile
    Char.isWhitespace).reverse)

/-- `listar_clientes` of `src/sistema_clientes/app.py` lines 108-120:
the search text is stripped; the status filter is skipped for the empty
string and for `"Todos"`; then `ORDER BY nome`. -/
def listarV2 (castVal : Amount → String) (cs : List Cliente) (status q0 : String) :
    List Cliente :=
  let q := pyStrip q0
  let cs1 := if status != "" && status != "Todos" then
    cs.filter (fun c => c.status_pagamento == status) else cs
  let cs2 := if q == "" then cs1 else cs1.filter (matchSearchV2 castVal q)
  sortCli cs2

/-! ### Summary aggregator (`src/app.py`, dashboard, lines 110-128) -/

/-- `total_clientes`: `count(Cliente.id)` over the whole table. -/
def totalClientes (cs : List Cliente) : Nat := cs.length

/-- The per-status count the dashboard reads out of the `group_by` result
with `counts.get(s, 0)` (a status with no rows yields 0, never a missing
key); extensionally, the number of rows whose `status_pagamento` equals
`s`.  The extended variant computes the same three numbers by three
filtered `count` queries. -/
def contagem (s : String) (cs : List Cliente) : Nat :=
  (cs.filter (fun c => c.status_pagamento == s)).length

/-! ### Export serializer (`src/app.py`, exportar_clientes, lines 211-230) -/

/-- A spreadsheet cell: a string, a number, or an empty cell (a `None`
field becomes NaN/blank in the produced sheet). -/
inductive Cell where
  | str (s : String)
  | num (a : Amount)
  | blank
  deriving DecidableEq, Repr

/-- `c.data_vencimento.strftime('%d/%m/%Y')`: zero-padded day/month, year. -/
def pad2 (n : Nat) : String :=
  if n < 10 then "0" ++ toString n else toString n

def formatDate (d : DateD) : String :=
  pad2 d.day ++ "/" ++ pad2 d.month ++ "/" ++ toString d.year

def optCell : Option String → Cell
  | some s => Cell.str s
  | none => Cell.blank

/-- One exported record, in the dict-key order of `src/app.py` lines
215-220: Nome, Email, Telefone, Valor a Pagar, Status, Data de Vencimento
(day/month/year, or '' when absent), Anotações. -/
def clienteRow (c : Cliente) : List Cell :=
  [Cell.str c.nome, optCell c.email, optCell c.telefone,
   Cell.num c.valor_a_pagar, Cell.str c.status_pagamento,
   Cell.str (match c.data_vencimento with
     | some d => formatDate d
     | none => ""),
   optCell c.anotacoes]

/-- The tabular content of the produced spreadsheet (the xlsx byte
encoding itself is the opaque serializer). -/
structure Sheet where
  headers : List String
  rows : List (List Cell)
  deriving DecidableEq, Repr

/-- `exportar_clientes`: builds the list of record dicts and feeds it to
`pandas.DataFrame`.  `DataFrame(records)` takes its columns from the dict
keys in first-appearance order — and an EMPTY record list yields a frame
with NO columns, so `to_excel` then writes a sheet without a header row.
The embedding reproduces exactly that collaborator behavior. -/
def exportar (cs : List Cliente) : Sheet :=
  { headers := if cs.isEmpty then [] else
      ["Nome", "Email", "Telefone", "Valor a Pagar", "Status",
       "Data de Vencimento", "Anotações"],
    rows := cs.map clienteRow }

/-! ### Python `float()` on the amount field
(`float(request.form['valor_a_pagar'].replace(',', '.'))`) -/

def allDigits (l : List Char) : Bool := l.all Char.isDigit

def natOfDigits (l : List Char) : Nat :=
  l.foldl (fun a c => a * 10 + (c.toNat - 48)) 0

/-- Split a char list at every separator char (like Python's
`str.split(sep)` with a one-char separator: `"a.b.c"` gives three parts,
`""` gives one empty part). -/
def splitCharAux (p : Char → Bool) : List Char → List Char → List (List Char)
  | [], acc => [acc.reverse]
  | c :: cs, acc =>
    if p c then acc.reverse :: splitCharAux p cs []
    else splitCharAux p cs (c :: acc)

def splitChar (p : Char → Bool) (l : List Char) : List (List Char) :=
  splitCharAux p l []

/-- Digits with at most one decimal point, at least one digit in total
(`"10"`, `".5"`, `"5."` parse; `""`, `"."`, `"1.2.3"` do not); yields the
unsigned digits and the decimal scale. -/
def parseMantissa (s : List Char) : Option (Nat × Nat) :=
  match splitChar (· == '.') s with
  | [i] =>
    if i.length > 0 && allDigits i then some (natOfDigits i, 0) else none
  | [i, f] =>
    if i.length + f.length > 0 && allDigits i && allDigits f then
      some (natOfDigits (i ++ f), f.length)
    else none
  | _ => none

/-- Strip one leading sign, returning (isNegative, rest). -/
def stripSign : List Char → Bool × List Char
  | '-' :: rest => (true, rest)
  | '+' :: rest => (false, rest)
  | l => (false, l)

def parseExpInt (s : List Char) : Option Int :=
  let p := stripSign s
  if p.2.length > 0 && allDigits p.2 then
    some (if p.1 then -(natOfDigits p.2 : Int) else (natOfDigits p.2 : Int))
  else none

/-- Apply a decimal exponent to an unsigned (digits, scale) mantissa. -/
def applyExp (m : Nat × Nat) : Int → Nat × Nat
  | Int.ofNat n => (m.1 * 10 ^ n, m.2)
  | Int.negSucc n => (m.1, m.2 + (n + 1))

def signedAmount (neg : Bool) (m : Nat × Nat) : Amount :=
  ⟨if neg then -(m.1 : Int) else (m.1 : Int), m.2⟩

/-- Python's `float()` on finite decimal literals: optional surrounding
whitespace, optional sign, mantissa, optional `e`/`E` exponent.  (The
`inf`/`nan` spellings and digit-group underscores of CPython are outside
the modelled domain; a string this function rejects raises `ValueError`
in the source.) -/
def parsePyFloat (s0 : String) : Option Amount :=
  let p := stripSign (pyStrip s0).toList
  match splitChar (fun c => c == 'e' || c == 'E') p.2 with
  | [m] => (parseMantissa m).map (signedAmount p.1)
  | [m, e] =>
    match parseMantissa m, parseExpInt e with
    | some mv, some ev => some (signedAmount p.1 (applyExp mv ev))
    | _, _ => none
  | _ => none

/-- Python's single-char `str.replace(',', '.')`, applied to the amount
field before parsing. -/
def replaceCommaDot (s : String) : String :=
  String.mk (s.toList.map fun c => if c = ',' then '.' else c)

/-! ### strptime('%Y-%m-%d') on the due-date field -/

def isLeap (y : Nat) : Bool :=
  (y % 4 == 0 && y % 100 != 0) || y % 400 == 0

def daysInMonth (y m : Nat) : Nat :=
  if m == 2 then (if isLeap y then 29 else 28)
  else if m == 4 || m == 6 || m == 9 || m == 11 then 30
  else 31

/-- `datetime.strptime(s, '%Y-%m-%d')`: three dash-separated digit groups,
year within datetime's 1..9999, month 1..12, day valid for the month. -/
def parseISODate (s : String) : Option DateD :=
  match splitChar (· == '-') s.toList with
  | [y, m, d] =>
    if allDigits y && allDigits m && allDigits d &&
        decide (y.length > 0) && decide (y.length ≤ 4) &&
        decide (m.length > 0) && decide (m.length ≤ 2) &&
        decide (d.length > 0) && decide (d.length ≤ 2) then
      let yv := natOfDigits y
      let mv := natOfDigits m
      let dv := natOfDigits d
      if decide (1 ≤ yv) && decide (1 ≤ mv) && decide (mv ≤ 12) &&
          decide (1 ≤ dv) && decide (dv ≤ daysInMonth yv mv) then
        some ⟨yv, mv, dv⟩
      else none
    else none
  | _ => none

/-! ### Write operations (`src/app.py`: novo_cliente, editar_cliente,
excluir_cliente) -/

/-- The POST body of the new/edit form; every field arrives as a string. -/
structure Form where
  nome : String
  email : String
  telefone : String
  valor_a_pagar : String
  status_pagamento : String
  anotacoes : String
  data_vencimento : String
  deriving DecidableEq, Repr

/-- How a request handler terminates. -/
inductive Outcome where
  /-- `flash(msg, cat)` followed by a redirect to the customer list. -/
  | redirectListar (msg cat : String)
  /-- An exception escaped the handler (no `try`/`except` in the route):
  the framework answers with a generic 500, no flash notice is queued. -/
  | unhandled (exn : String)
  /-- `get_or_404` failed: HTTP 404. -/
  | notFound
  deriving DecidableEq, Repr

/-- Autoincrement id for an insert: one past the largest id in the table. -/
def nextId (cs : List Cliente) : Nat :=
  (cs.map Cliente.id).foldr max 0 + 1

/-- `data_vencimento = strptime(s, '%Y-%m-%d').date() if s else None`:
an empty string means no due date; a malformed non-empty string raises
(`none` here). -/
def parseDataVenc (s : String) : Option (Option DateD) :=
  if s == "" then some none else (parseISODate s).map some

/-- `novo_cliente` (src/app.py lines 159-179), POST branch.  Field order of
the source: the form strings are read, then
`float(form['valor_a_pagar'].replace(',', '.'))` (a malformed amount raises
`ValueError` with nothing committed), then the due-date string is parsed
unless empty (a malformed date likewise raises), then the row is inserted
and committed and a success notice is flashed.  Optional text fields are
stored as the submitted strings (possibly empty), never as NULL, on this
path. -/
def novoCliente (cs : List Cliente) (f : Form) : Outcome × List Cliente :=
  match parsePyFloat (replaceCommaDot f.valor_a_pagar) with
  | none => (Outcome.unhandled "ValueError", cs)
  | some v =>
    match parseDataVenc f.data_vencimento with
    | none => (Outcome.unhandled "ValueError", cs)
    | some d? =>
      (Outcome.redirectListar "Cliente cadastrado com sucesso!" "success",
        cs ++ [⟨nextId cs, f.nome, some f.email, some f.telefone, v,
          f.status_pagamento, some f.anotacoes, d?⟩])

def novoApply (cs : List Cliente) (f : Form) : List Cliente :=
  (novoCliente cs f).2

/-- `editar_cliente` (src/app.py lines 181-200), POST branch.
`get_or_404` on a missing id yields 404 with no effect; a malformed amount
or date raises before `commit()` and the uncommitted attribute changes are
rolled back at request teardown, so the store is unchanged; otherwise every
field of the row is replaced (id kept) and committed. -/
def editarCliente (cs : List Cliente) (i : Nat) (f : Form) :
    Outcome × List Cliente :=
  if (cs.find? (fun c => c.id == i)).isSome then
    match parsePyFloat (replaceCommaDot f.valor_a_pagar) with
    | none => (Outcome.unhandled "ValueError", cs)
    | some v =>
      match parseDataVenc f.data_vencimento with
      | none => (Outcome.unhandled "ValueError", cs)
      | some d? =>
        (Outcome.redirectListar "Cliente atualizado com sucesso!" "success",
          cs.map fun c =>
            if c.id == i then
              ⟨c.id, f.nome, some f.email, some f.telefone, v,
                f.status_pagamento, some f.anotacoes, d?⟩
            else c)
  else (Outcome.notFound, cs)

def editarApply (cs : List Cliente) (i : Nat) (f : Form) : List Cliente :=
  (editarCliente cs i f).2

/-- `excluir_cliente` (src/app.py lines 202-209): 404 on a missing id,
otherwise the row is deleted and committed. -/
def excluirCliente (cs : List Cliente) (i : Nat) : Outcome × List Cliente :=
  if (cs.find? (fun c => c.id == i)).isSome then
    (Outcome.redirectListar "Cliente excluído com sucesso!" "danger",
      cs.filter (fun c => !(c.id == i)))
  else (Outcome.notFound, cs)

def excluirApply (cs : List Cliente) (i : Nat) : List Cliente :=
  (excluirCliente cs i).2

/-- The customer-table states reachable through the application's write
routes, starting from the freshly created (empty) schema. -/
inductive Reachable : List Cliente → Prop where
  | init : Reachable []
  | novo (cs : List Cliente) (f : Form) :
      Reachable cs → Reachable (novoApply cs f)
  | editar (cs : List Cliente) (i : Nat) (f : Form) :
      Reachable cs → Reachable (editarApply cs i f)
  | excluir (cs : List Cliente) (i : Nat) :
      Reachable cs → Reachable (excluirApply cs i)

/-! ### Auth gate (`src/app.py`, login, lines 86-99) -/

/-- `User.query.filter_by(username=...).first()`. -/
def firstByUsername (us : List User) (name : String) : Option User :=
  us.find? (fun u => u.username == name)

/-- The observable outcome of a POST to `/login`. -/
inductive LoginResult where
  /-- `login_user(user)` and redirect to the dashboard. -/
  | success (uid : Nat)
  /-- `flash(msg, cat)` and re-render of the login form. -/
  | failure (msg cat : String)
  deriving DecidableEq, Repr

/-- The POST branch of `login`: look the user up by exact username; verify
the password against the stored hash with the opaque one-way `verify`; a
missing user and a failing verification fall into the same `else` with the
same flash message. -/
def loginPost (verify : String → String → Bool) (us : List User)
    (username password : String) : LoginResult :=
  match firstByUsername us username with
  | some u =>
    if verify u.password_hash password then LoginResult.success u.id
    else LoginResult.failure "Login ou senha inválidos." "danger"
  | none => LoginResult.failure "Login ou senha inválidos." "danger"

/-! ### Default-user provisioning (`src/app.py`, create_user_command,
lines 72-83) -/

def nextUserId (us : List User) : Nat :=
  (us.map User.id).foldr max 0 + 1

/-- `create-user`: if no row with username `'teste'` exists, insert one
whose hash is `generate_password_hash('teste1')` (the opaque `genHash`);
otherwise do nothing (and in either case terminate normally, printing a
message). -/
def createUserCommand (genHash : String → String) (us : List User) :
    List User :=
  match firstByUsername us "teste" with
  | some _ => us
  | none => us ++ [⟨nextUserId us, "teste", genHash "teste1"⟩]

/-- Number of stored users carrying a given username. -/
def countUsername (us : List User) (name : String) : Nat :=
  (us.filter (fun u => u.username == name)).length

/-! ### Helper lemmas -/

theorem mem_sortCli {cs : List Cliente} {c : Cliente} :
    c ∈ sortCli cs ↔ c ∈ cs := by
  simp [sortCli, List.mem_insertionSort]

/-- Membership characterization of the basic listing route: a customer is
listed iff it is stored, passes the status clause, and passes the search
clause (vacuous for an empty search text). -/
theorem mem_listar (cs : List Cliente) (status q : String) (c : Cliente) :
    c ∈ listar cs status q ↔
      c ∈ cs ∧ statusPass status c = true ∧
        (q = "" ∨ matchSearch q c = true) := by
  unfold listar
  rw [mem_sortCli]
  by_cases hs : status = "Todos" <;> by_cases hq : q = "" <;>
    (simp [hs, hq, List.mem_filter, statusPass]; try tauto)

theorem countUsername_eq_zero {us : List User} {n : String}
    (h : firstByUsername us n = none) : countUsername us n = 0 := by
  induction us with
  | nil => rfl
  | cons u us ih =>
    rw [firstByUsername, List.find?_cons] at h
    rw [countUsername, List.filter_cons]
    split at h
    · exact absurd h (by simp)
    · next hu =>
      rw [hu]
      exact ih h

theorem countUsername_pos {us : List User} {n : String} {u : User}
    (h : firstByUsername us n = some u) : 1 ≤ countUsername us n := by
  induction us with
  | nil => simp [firstByUsername] at h
  | cons v us ih =>
    rw [firstByUsername, List.find?_cons] at h
    rw [countUsername, List.filter_cons]
    split at h
    · next hv => simp [hv]
    · next hv =>
      rw [hv]
      exact ih h

theorem countUsername_append (us vs : List User) (n : String) :
    countUsername (us ++ vs) n = countUsername us n + countUsername vs n := by
  simp [countUsername, List.filter_append]

theorem firstByUsername_append_none {us vs : List User} {n : String}
    (h : firstByUsername us n = none) :
    firstByUsername (us ++ vs) n = firstByUsername vs n := by
  induction us with
  | nil => rfl
  | cons u us ih =>
    cases hu : (u.username == n) with
    | false =>
      have h' : firstByUsername us n = none := by
        simpa [firstByUsername, List.find?_cons, hu] using h
      simpa [firstByUsername, List.find?_cons, hu] using ih h'
    | true =>
      exfalso
      simp [firstByUsername, List.find?_cons, hu] at h

example : containsCI "carol" "carol.lima@example.com" = true := by decide
example : matchOpt "x" none = false := by decide

/-! ### Concrete fixtures used by counterexamples and witnesses -/

/-- A syntactically well-formed submission carrying the out-of-enumeration
status string `"Bogus"`. -/
def formBogus : Form :=
  ⟨"Cliente X", "", "", "10", "Bogus", "", ""⟩

/-- The row that submitting `formBogus` against an empty table stores. -/
def badCliente : Cliente :=
  ⟨1, "Cliente X", some "", some "", ⟨10, 0⟩, "Bogus", some "", none⟩

/-- A customer named Alice whose email contains "carol". -/
def alice : Cliente :=
  ⟨1, "Alice", some "carol.lima@example.com", none, ⟨0, 0⟩, "A Pagar",
    none, none⟩

/-- A customer whose optional text fields are all NULL. -/
def noneCliente : Cliente :=
  ⟨3, "Bruno", none, none, ⟨0, 0⟩, "Pago", none, none⟩

/-- A submission whose amount field does not parse as a number. -/
def formAbc : Form :=
  ⟨"Cliente Y", "", "", "abc", "A Pagar", "", ""⟩

/-- A second malformed-amount submission (comma normalized, still no
number). -/
def formBadComma : Form :=
  ⟨"Cliente Z", "", "", "12,x", "Pago", "", ""⟩

/-- The opaque password-hash pair used by concrete witnesses: any one-way
verify/generate pair with `verify (genHash p) p = true` stands in for the
external hashing primitive. -/
def genHashModel (p : String) : String := "hash:" ++ p

def verifyModel (h p : String) : Bool := h == "hash:" ++ p

/-- The store after provisioning the default user from an empty table. -/
def defaultUsers : List User := [⟨1, "teste", "hash:teste1"⟩]

/-- A trivial rendering of the float column, instantiating the
storage-dependent `castVal` parameter of the extended search in concrete
witnesses. -/
def castValModel (_a : Amount) : String := ""

example : createUserCommand genHashModel [] = defaultUsers := by decide
example : loginPost verifyModel defaultUsers "teste" "teste1" =
  LoginResult.success 1 := by decide

/-- The single-customer state with a fourth status value is reachable:
one POST to `/clientes/novo` away from the empty table. -/
theorem reachable_badCliente : Reachable [badCliente] := by
  have h : novoApply [] formBogus = [badCliente] := by decide
  exact h ▸ Reachable.novo [] formBogus Reachable.init

/-! ### Claims -/

/-- Claim C1, counterexample: the store state `[badCliente]`, whose only
row carries the status string `"Bogus"` (none of the three enumerated
values), is reachable — the 'new customer' write path does not reject the
out-of-set submission, contradicting the claim that no reachable store
state contains a fourth status value. -/
theorem C1_counterexample :
    Reachable [badCliente] ∧ badCliente.status_pagamento ∉ statusValues :=
  ⟨reachable_badCliente, by decide⟩

/-- Claim C1, amended: the write paths store the submitted
`status_pagamento` string verbatim, with no validation; the three-value
invariant therefore holds exactly on runs whose submissions all carry one
of the enumerated values — every write (create, edit, delete) preserves
the invariant when the submitted status is enumerated. -/
theorem C1_amended (cs : List Cliente) (f : Form) (i : Nat)
    (hcs : ∀ c ∈ cs, c.status_pagamento ∈ statusValues)
    (hf : f.status_pagamento ∈ statusValues) :
    (∀ c ∈ novoApply cs f, c.status_pagamento ∈ statusValues) ∧
    (∀ c ∈ editarApply cs i f, c.status_pagamento ∈ statusValues) ∧
    (∀ c ∈ excluirApply cs i, c.status_pagamento ∈ statusValues) := by
  refine ⟨?_, ?_, ?_⟩
  · intro c hc
    unfold novoApply novoCliente at hc
    cases hp : parsePyFloat (replaceCommaDot f.valor_a_pagar) with
    | none => rw [hp] at hc; exact hcs c hc
    | some v =>
      rw [hp] at hc
      cases hq : parseDataVenc f.data_vencimento with
      | none => rw [hq] at hc; exact hcs c hc
      | some d? =>
        rw [hq] at hc
        have hc' : c ∈ cs ∨ c ∈ [(⟨nextId cs, f.nome, some f.email,
            some f.telefone, v, f.status_pagamento, some f.anotacoes,
            d?⟩ : Cliente)] := List.mem_append.mp hc
        rcases hc' with hc' | hc'
        · exact hcs c hc'
        · rw [List.mem_singleton] at hc'
          rw [hc']
          exact hf
  · intro c hc
    unfold editarApply editarCliente at hc
    by_cases hfind : ((cs.find? (fun c => c.id == i)).isSome) = true
    · rw [if_pos hfind] at hc
      cases hp : parsePyFloat (replaceCommaDot f.valor_a_pagar) with
      | none => rw [hp] at hc; exact hcs c hc
      | some v =>
        rw [hp] at hc
        cases hq : parseDataVenc f.data_vencimento with
        | none => rw [hq] at hc; exact hcs c hc
        | some d? =>
          rw [hq] at hc
          have hc' := List.mem_map.mp hc
          obtain ⟨c0, hc0, hmap⟩ := hc'
          by_cases hid : (c0.id == i) = true
          · rw [if_pos hid] at hmap
            rw [← hmap]
            exact hf
          · rw [if_neg hid] at hmap
            rw [← hmap]
            exact hcs c0 hc0
    · rw [if_neg hfind] at hc
      exact hcs c hc
  · intro c hc
    unfold excluirApply excluirCliente at hc
    by_cases hfind : ((cs.find? (fun c => c.id == i)).isSome) = true
    · rw [if_pos hfind] at hc
      exact hcs c (List.mem_filter.mp hc).1
    · rw [if_neg hfind] at hc
      exact hcs c hc

/-- Claim C1, witness: the preservation theorem applied at a concrete
state, an in-enumeration submission `"Pago"`, and the concrete row the
submission stores. -/
theorem C1_witness :
    (⟨2, "Bia", some "", some "", ⟨5, 0⟩, "Pago", some "",
      none⟩ : Cliente).status_pagamento ∈ statusValues :=
  (C1_amended [alice] ⟨"Bia", "", "", "5", "Pago", "", ""⟩ 1
    (by decide) (by decide)).1
    ⟨2, "Bia", some "", some "", ⟨5, 0⟩, "Pago", some "", none⟩ (by decide)
/-- Claim C2, counterexample: for the status value `"Bogus"` — neither the
sentinel `"Todos"` nor one of the three enumerated statuses — the listing
differs from the `"Todos"` listing on a one-customer store: the
unrecognized value filters everything out instead of behaving as
`"Todos"`. -/
theorem C2_counterexample :
    ("Bogus" ∉ "Todos" :: statusValues) ∧
      listar [alice] "Bogus" "" ≠ listar [alice] "Todos" "" := by
  constructor
  · decide
  · decide

/-- Claim C2, amended: every status value other than the sentinel
`"Todos"` — recognized or not — is used as an equality filter on the
stored status, so an unrecognized value returns exactly the customers
whose stored status equals it (the empty list whenever the store respects
the three-value enumeration), not the unfiltered `"Todos"` listing. -/
theorem C2_amended (cs : List Cliente) (s q : String) (c : Cliente)
    (hs : s ≠ "Todos") :
    c ∈ listar cs s q ↔
      c ∈ cs ∧ c.status_pagamento = s ∧
        (q = "" ∨ matchSearch q c = true) := by
  rw [mem_listar]
  have : statusPass s c = true ↔ c.status_pagamento = s := by
    simp [statusPass, hs]
  rw [this]

/-- Claim C2, witness: the amended characterization applied at the
unrecognized status `"Bogus"` and the reachable row carrying it — the row
is listed because its stored status equals the filter value. -/
theorem C2_witness : badCliente ∈ listar [badCliente] "Bogus" "" :=
  (C2_amended [badCliente] "Bogus" "" badCliente (by decide)).mpr
    ⟨by decide, by decide, Or.inl rfl⟩

/-- Claim C3, counterexample: exporting the empty customer set yields a
sheet with zero data rows but WITHOUT the 7-column header row —
`pandas.DataFrame([])` has no columns, so the header of the claim is
absent. -/
theorem C3_counterexample :
    (exportar []).rows = [] ∧
      (exportar []).headers ≠
        ["Nome", "Email", "Telefone", "Valor a Pagar", "Status",
         "Data de Vencimento", "Anotações"] := by
  constructor
  · rfl
  · decide

/-- Claim C3, amended: the export always has one data row per customer;
for a NON-empty customer set the header row is exactly the 7 columns Nome,
Email, Telefone, Valor a Pagar, Status, Data de Vencimento, Anotações in
that order, while for the empty set the sheet has no columns at all (and
hence no header row). -/
theorem C3_amended (cs : List Cliente) :
    (exportar cs).rows.length = cs.length ∧
      (cs = [] → (exportar cs).headers = []) ∧
      (cs ≠ [] →
        (exportar cs).headers =
          ["Nome", "Email", "Telefone", "Valor a Pagar", "Status",
           "Data de Vencimento", "Anotações"]) := by
  refine ⟨by simp [exportar], ?_, ?_⟩
  · intro h
    subst h
    rfl
  · intro h
    have : cs.isEmpty = false := by
      cases cs with
      | nil => exact absurd rfl h
      | cons a l => rfl
    simp [exportar, this]

/-- Claim C3, witness: the amended export contract applied at a concrete
one-customer set. -/
theorem C3_witness :
    (exportar [alice]).headers =
      ["Nome", "Email", "Telefone", "Valor a Pagar", "Status",
       "Data de Vencimento", "Anotações"] :=
  (C3_amended [alice]).2.2 (by decide)

/-- Claim C4, counterexample: the reachable store whose only row carries
the fourth status `"Bogus"` breaks the dashboard consistency equation —
the row is counted by `total_customers` but by none of the three
per-status counters, so the counters sum to 0 while the total is 1. -/
theorem C4_counterexample :
    Reachable [badCliente] ∧
      contagem "A Pagar" [badCliente] + contagem "Pago" [badCliente] +
        contagem "Parcial" [badCliente] ≠ totalClientes [badCliente] :=
  ⟨reachable_badCliente, by decide⟩

/-- Claim C4, amended: on every customer set whose rows all carry one of
the three enumerated statuses (the states the application's own forms
produce), the three per-status dashboard counters sum to the customer
total; the counters themselves are total functions, so a status with no
rows contributes 0 rather than a missing key. -/
theorem C4_amended (cs : List Cliente)
    (h : ∀ c ∈ cs, c.status_pagamento ∈ statusValues) :
    contagem "A Pagar" cs + contagem "Pago" cs + contagem "Parcial" cs =
      totalClientes cs := by
  induction cs with
  | nil => rfl
  | cons c cs ih =>
    have hc := h c (by simp)
    have ih' := ih (fun x hx => h x (by simp [hx]))
    simp only [statusValues, List.mem_cons, List.not_mem_nil, or_false] at hc
    simp only [contagem, totalClientes, List.filter_cons, List.length_cons]
    simp only [contagem, totalClientes] at ih'
    rcases hc with h1 | h1 | h1 <;> rw [h1] <;> simp <;> omega

/-- Claim C4, witness: the consistency equation applied at a concrete
two-row store with enumerated statuses. -/
theorem C4_witness :
    contagem "A Pagar" [alice, noneCliente] +
      contagem "Pago" [alice, noneCliente] +
      contagem "Parcial" [alice, noneCliente] =
      totalClientes [alice, noneCliente] :=
  C4_amended [alice, noneCliente] (by decide)

/-- Claim C5: with a non-empty search text, the listing returns exactly
the stored customers that pass the status clause AND have the search text
as a case-insensitive substring of at least one of name, email, phone,
notes, or the status label (a logical OR across the five fields). -/
theorem C5_search_fields (cs : List Cliente) (status q : String)
    (c : Cliente) (hq : q ≠ "") :
    c ∈ listar cs status q ↔
      c ∈ cs ∧ statusPass status c = true ∧ matchSearch q c = true := by
  rw [mem_listar]
  constructor
  · rintro ⟨h1, h2, h3 | h3⟩
    · exact absurd h3 hq
    · exact ⟨h1, h2, h3⟩
  · rintro ⟨h1, h2, h3⟩
    exact ⟨h1, h2, Or.inr h3⟩

/-- Claim C5, witness: the customer named "Alice" with email
`carol.lima@example.com` is returned for the search `"carol"` even though
her name does not contain it (match on the email field). -/
theorem C5_witness : alice ∈ listar [alice] "Todos" "carol" :=
  (C5_search_fields [alice] "Todos" "carol" alice (by decide)).mpr
    ⟨by decide, by decide, by decide⟩

/-- Claim C6, counterexample: the 'new customer' submission whose amount
field is the malformed string `"abc"` leaves the store unchanged, but its
outcome is an escaped `ValueError` (an HTTP 500), not a user-visible
notice — `novo_cliente` in src/app.py has no try/except around the
`float(...)` call, contradicting the claim that no unhandled fault
propagates. -/
theorem C6_counterexample :
    parsePyFloat (replaceCommaDot formAbc.valor_a_pagar) = none ∧
      novoCliente [] formAbc = (Outcome.unhandled "ValueError", []) := by
  constructor
  · decide
  · decide

/-- Claim C6, amended: a submission whose amount field does not parse
(after normalizing a comma separator to a dot) leaves the customer set
unchanged and never commits the write, but the failure surfaces as an
unhandled `ValueError` (a generic 500), not as a flash notice. -/
theorem C6_amended (cs : List Cliente) (f : Form)
    (h : parsePyFloat (replaceCommaDot f.valor_a_pagar) = none) :
    novoCliente cs f = (Outcome.unhandled "ValueError", cs) := by
  unfold novoCliente
  rw [h]

/-- Claim C6, witness: the amended statement applied at a concrete store
and the malformed comma-normalized amount `"12,x"`. -/
theorem C6_witness :
    novoCliente [alice] formBadComma =
      (Outcome.unhandled "ValueError", [alice]) :=
  C6_amended [alice] formBadComma (by decide)

/-- Claim C7: an unknown username and an existing username with a wrong
password land in the same `else` branch of the login route, producing
equal `LoginResult` values — the uniform "Login ou senha inválidos."
rejection — so the caller cannot tell which of the two failed. -/
theorem C7_uniform_rejection (verify : String → String → Bool)
    (us : List User) (n1 p1 n2 p2 : String)
    (h1 : firstByUsername us n1 = none)
    (h2 : ∃ u, firstByUsername us n2 = some u ∧
      verify u.password_hash p2 = false) :
    loginPost verify us n1 p1 = loginPost verify us n2 p2 ∧
      loginPost verify us n1 p1 =
        LoginResult.failure "Login ou senha inválidos." "danger" := by
  obtain ⟨u, hu, hv⟩ := h2
  simp [loginPost, h1, hu, hv]

/-- Claim C7, witness: against the freshly provisioned default user,
`("nouser", "anything")` and `("teste", "wrong")` yield the same generic
rejection. -/
theorem C7_witness :
    loginPost verifyModel defaultUsers "nouser" "anything" =
      loginPost verifyModel defaultUsers "teste" "wrong" ∧
    loginPost verifyModel defaultUsers "nouser" "anything" =
      LoginResult.failure "Login ou senha inválidos." "danger" :=
  C7_uniform_rejection verifyModel defaultUsers "nouser" "anything"
    "teste" "wrong" (by decide)
    ⟨⟨1, "teste", "hash:teste1"⟩, by decide, by decide⟩

/-- Claim C8: provisioning is idempotent — starting from any store
satisfying the username-uniqueness invariant (at most one `'teste'` row),
running `create-user` twice is the same as running it once, the second run
completes without error (the operation is total), and the final store has
exactly one user named `'teste'`. -/
theorem C8_provisioning_idempotent (genHash : String → String)
    (us : List User) (h : countUsername us "teste" ≤ 1) :
    createUserCommand genHash (createUserCommand genHash us) =
      createUserCommand genHash us ∧
    countUsername
      (createUserCommand genHash (createUserCommand genHash us))
      "teste" = 1 := by
  cases hu : firstByUsername us "teste" with
  | some u =>
    have he : createUserCommand genHash us = us := by
      unfold createUserCommand
      rw [hu]
    rw [he, he]
    have h1 := countUsername_pos hu
    exact ⟨rfl, by omega⟩
  | none =>
    have he : createUserCommand genHash us =
        us ++ [⟨nextUserId us, "teste", genHash "teste1"⟩] := by
      unfold createUserCommand
      rw [hu]
    have hfind2 : firstByUsername
        (us ++ [⟨nextUserId us, "teste", genHash "teste1"⟩]) "teste" =
        some ⟨nextUserId us, "teste", genHash "teste1"⟩ := by
      rw [firstByUsername_append_none hu]
      rfl
    have he2 : createUserCommand genHash
        (us ++ [⟨nextUserId us, "teste", genHash "teste1"⟩]) =
        us ++ [⟨nextUserId us, "teste", genHash "teste1"⟩] := by
      unfold createUserCommand
      rw [hfind2]
    rw [he, he2]
    refine ⟨rfl, ?_⟩
    rw [countUsername_append, countUsername_eq_zero hu]
    rfl

/-- Claim C8, witness: provisioning twice from the empty store yields
exactly one `'teste'` user and the second run is a no-op. -/
theorem C8_witness :
    createUserCommand genHashModel (createUserCommand genHashModel []) =
      createUserCommand genHashModel [] ∧
    countUsername
      (createUserCommand genHashModel (createUserCommand genHashModel []))
      "teste" = 1 :=
  C8_provisioning_idempotent genHashModel [] (by decide)

/-- Claim C9: a stored customer whose email, phone and notes are all NULL
is listed for a non-empty search text (under the sentinel status filter)
iff the text matches its name or its status label case-insensitively; the
NULL fields never match and never make the search fail (the listing is a
total function). -/
theorem C9_null_fields (cs : List Cliente) (q : String) (c : Cliente)
    (hq : q ≠ "") (hmem : c ∈ cs) (he : c.email = none)
    (ht : c.telefone = none) (ha : c.anotacoes = none) :
    c ∈ listar cs "Todos" q ↔
      (containsCI q c.nome = true ∨
        containsCI q c.status_pagamento = true) := by
  rw [mem_listar]
  simp [statusPass, matchSearch, he, ht, ha, hq, hmem, matchOpt]

/-- Claim C9, witness: the all-NULL-fields customer "Bruno" with status
"Pago" is returned for the search `"pag"` (match on the status label). -/
theorem C9_witness : noneCliente ∈ listar [noneCliente] "Todos" "pag" :=
  (C9_null_fields [noneCliente] "pag" noneCliente (by decide) (by decide)
    rfl rfl rfl).mpr (Or.inr (by decide))

/-- Claim C10: with an empty search text and a status filter drawn from
the sentinel plus the three enumerated values, the basic and the extended
listing routes return the same ordered sequence of customers, for every
rendering of the float column as text (the extra search clauses of the
extended variant are dead on an empty search). -/
theorem C10_variants_agree (castVal : Amount → String) (cs : List Cliente)
    (status : String)
    (h : status ∈ ["Todos", "A Pagar", "Pago", "Parcial"]) :
    listar cs status "" = listarV2 castVal cs status "" := by
  simp only [List.mem_cons, List.not_mem_nil, or_false] at h
  rcases h with h | h | h | h <;> subst h <;> rfl

/-- Claim C10, witness: the two variants agree on a concrete two-row
store under the filter `"Pago"` with an empty search. -/
theorem C10_witness :
    listar [alice, noneCliente] "Pago" "" =
      listarV2 castValModel [alice, noneCliente] "Pago" "" :=
  C10_variants_agree castValModel [alice, noneCliente] "Pago" (by decide)
